import Mathlib

/-!
Verification development for the data-visualization pipeline
(`src/data_processor.py`, `src/llm_handler.py`, `src/visualization.py`).

Python semantics are shallowly embedded:
* a raising Python function becomes `Except String α` (the error string is
  the exception message, `str(e)` in the source);
* dynamically typed values flowing out of `json.loads` become `JValue`;
* Python `dict` becomes an insertion-ordered association list with
  last-write-wins update, mirroring CPython semantics;
* each network call to the hosted model (`model.generate_content(...).text`)
  is an oracle field of `GenEnv`: either an exception or a response text.
  Prompt strings do not influence control flow and are not reconstructed,
  but every computation feeding a prompt that can *raise* is modelled.
-/

/-- A Python value as produced by `json.loads` (plus the literal dicts built
by the handlers).  Numbers keep their literal text: no claim depends on
numeric values. -/
inductive JValue where
  | jnull : JValue
  | jbool : Bool → JValue
  | jnum : String → JValue
  | jstr : String → JValue
  | jarr : List JValue → JValue
  | jobj : List (String × JValue) → JValue

open JValue

/-- Python dict update `d[k] = v`: replace in place if the key exists,
else append. -/
def pyDictSet {α : Type} : List (String × α) → String → α → List (String × α)
  | [], k, v => [(k, v)]
  | (k', v') :: rest, k, v =>
    if k' = k then (k', v) :: rest else (k', v') :: pyDictSet rest k v

/-- Build a Python dict from a pair sequence (duplicate keys: last wins),
as `dict(...)` / a dict comprehension does. -/
def pyDictOfPairs {α : Type} (l : List (String × α)) : List (String × α) :=
  l.foldl (fun d p => pyDictSet d p.1 p.2) []

/-- Python dict lookup returning the value if the key is present. -/
def pyLookup {α : Type} (d : List (String × α)) (k : String) : Option α :=
  (d.find? (fun p => p.1 == k)).map Prod.snd

/-- Python subscript `v[k]` with a string key: succeeds only on a dict that
has the key (`KeyError` otherwise, `TypeError` on non-dicts). -/
def pyGetItem (v : JValue) (k : String) : Except String JValue :=
  match v with
  | .jobj fields =>
    match pyLookup fields k with
    | some w => .ok w
    | none => .error ("KeyError: " ++ k)
  | _ => .error ("TypeError: value is not subscriptable by " ++ k)

/-- Python `len(v)`: lists, strings and dicts have a length, other JSON
values raise `TypeError`. -/
def pyLen (v : JValue) : Except String Nat :=
  match v with
  | .jarr l => .ok l.length
  | .jstr s => .ok s.length
  | .jobj fields => .ok fields.length
  | _ => .error "TypeError: object has no len()"

/-- Python slice `v[:n]`: works on lists and strings, raises on the rest. -/
def pySliceTake (v : JValue) (n : Nat) : Except String JValue :=
  match v with
  | .jarr l => .ok (.jarr (l.take n))
  | .jstr s => .ok (.jstr (String.mk (s.data.take n)))
  | _ => .error "TypeError: object is not subscriptable by a slice"

/-- Python iteration `for x in v`: lists yield elements, strings yield
one-character strings, dicts yield their keys; the rest raise. -/
def pyIterElems (v : JValue) : Except String (List JValue) :=
  match v with
  | .jarr l => .ok l
  | .jstr s => .ok (s.data.map (fun c => .jstr (String.mk [c])))
  | .jobj fields => .ok (fields.map (fun p => .jstr p.1))
  | _ => .error "TypeError: object is not iterable"

/-- Python hashability: lists and dicts are unhashable. -/
def pyHashable (v : JValue) : Bool :=
  match v with
  | .jarr _ => false
  | .jobj _ => false
  | _ => true

/-- The elements a returned Python value exposes (used to state properties
of "every element of the returned list"; a non-sequence has none). -/
def pyElems (v : JValue) : List JValue :=
  match v with
  | .jarr l => l
  | .jstr s => s.data.map (fun c => .jstr (String.mk [c]))
  | _ => []

/-! ## `src/data_processor.py` -/

/-- A pandas DataFrame as far as `data_processor.py` observes it:
the ordered `(column name, dtype string)` pairs and the row count.
`df.describe(...)` feeds only the `summary` entry, kept opaque. -/
structure PDataFrame where
  cols : List (String × String)
  nrows : Nat
  describeSummary : List (String × JValue)

/-- pandas `df.empty`: true when any axis has length zero. -/
def pandasEmpty (df : PDataFrame) : Bool :=
  df.nrows == 0 || df.cols.length == 0

/-- The descriptor built by `get_data_info`. -/
structure DataInfo where
  columns : List String
  dtypes : List (String × String)
  shape : Nat × Nat
  summary : List (String × JValue)

/-- `get_data_info(df)`: columns list, dtype dict (a dict comprehension over
`df.dtypes.items()`), `df.shape`, and the opaque describe summary. -/
def get_data_info (df : PDataFrame) : DataInfo :=
  { columns := df.cols.map Prod.fst
    dtypes := pyDictOfPairs df.cols
    shape := (df.nrows, df.cols.length)
    summary := df.describeSummary }

/-- Python `str.lower()` (character-wise, as for ASCII filenames). -/
def pyLower (s : String) : String := String.mk (s.data.map Char.toLower)

/-- Python `str.endswith(suffix)`. -/
def pyEndsWith (s suffix : String) : Bool := suffix.data.isSuffixOf s.data

/-- The format dispatch of `load_data`: `.csv` goes to `read_csv`,
`.xlsx`/`.xls` to `read_excel`, anything else tries `read_csv` and replaces
its failure with the unsupported-format `ValueError`.  The readers are
oracles (an uploaded file either parses to a frame or raises). -/
def dispatchRead (filename : String) (readCsv readExcel : Except String PDataFrame) :
    Except String PDataFrame :=
  let fl := pyLower filename
  if pyEndsWith fl ".csv" then readCsv
  else if pyEndsWith fl ".xlsx" || pyEndsWith fl ".xls" then readExcel
  else
    match readCsv with
    | .ok df => .ok df
    | .error _ => .error ("Unsupported file format: " ++ filename)

/-- `load_data`: dispatch on the filename, validate (empty frame, zero
columns), and re-raise anything as `ValueError("Error loading data: ...")`.
(The `df is None` guard is dead: the readers never return `None`.) -/
def load_data (filename : String) (readCsv readExcel : Except String PDataFrame) :
    Except String PDataFrame :=
  match dispatchRead filename readCsv readExcel with
  | .error e => .error ("Error loading data: " ++ e)
  | .ok df =>
    if pandasEmpty df then .error "Error loading data: The uploaded file is empty"
    else if df.cols.length == 0 then .error "Error loading data: The uploaded file has no columns"
    else .ok df

/-! ## JSON parsing (a model of `json.loads`)

`json.loads` is modelled by a fuel-indexed recursive-descent parser over the
character list.  Fuel `length + 1` always suffices because every recursive
step consumes at least one character.  Error messages are simplified; no
claim depends on their exact text, only on success versus failure.
Duplicate object keys follow CPython semantics (last one wins), via
`pyDictSet`, and the non-standard constants `NaN`, `Infinity` and
`-Infinity` are accepted at value positions, as CPython does by default. -/

/-- JSON whitespace, as skipped by `json.loads`. -/
def jsonWS (c : Char) : Bool := c = ' ' || c = '\t' || c = '\n' || c = '\r'

/-- Value of a hexadecimal digit. -/
def hexVal (c : Char) : Option Nat :=
  if '0' ≤ c ∧ c ≤ '9' then some (c.toNat - 48)
  else if 'a' ≤ c ∧ c ≤ 'f' then some (c.toNat - 87)
  else if 'A' ≤ c ∧ c ≤ 'F' then some (c.toNat - 55)
  else none

/-- Parse the body of a JSON string (the opening quote already consumed),
accumulating decoded characters. -/
def parseJStringAux : List Char → List Char → Except String (String × List Char)
  | [], _ => .error "Unterminated string starting at"
  | '"' :: rest, acc => .ok (String.mk acc.reverse, rest)
  | '\\' :: 'u' :: h1 :: h2 :: h3 :: h4 :: rest, acc =>
    match hexVal h1, hexVal h2, hexVal h3, hexVal h4 with
    | some a, some b, some c, some d =>
      parseJStringAux rest (Char.ofNat (((a * 16 + b) * 16 + c) * 16 + d) :: acc)
    | _, _, _, _ => .error "Invalid \\uXXXX escape"
  | '\\' :: e :: rest, acc =>
    if e = '"' then parseJStringAux rest ('"' :: acc)
    else if e = '\\' then parseJStringAux rest ('\\' :: acc)
    else if e = '/' then parseJStringAux rest ('/' :: acc)
    else if e = 'b' then parseJStringAux rest ('\x08' :: acc)
    else if e = 'f' then parseJStringAux rest ('\x0c' :: acc)
    else if e = 'n' then parseJStringAux rest ('\n' :: acc)
    else if e = 'r' then parseJStringAux rest ('\x0d' :: acc)
    else if e = 't' then parseJStringAux rest ('\t' :: acc)
    else .error "Invalid \\escape"
  | '\\' :: [], _ => .error "Unterminated string starting at"
  | c :: rest, acc =>
    if c.toNat < 32 then .error "Invalid control character"
    else parseJStringAux rest (c :: acc)

/-- Lex a JSON number (`-?(0|[1-9][0-9]*)(\.[0-9]+)?([eE][+-]?[0-9]+)?`),
returning its literal text. -/
def parseJNumber (cs : List Char) : Except String (String × List Char) :=
  let (sign, cs1) : List Char × List Char :=
    match cs with
    | '-' :: r => (['-'], r)
    | _ => ([], cs)
  match cs1 with
  | '0' :: r => afterInt (sign ++ ['0']) r
  | c :: _ =>
    if c.isDigit then
      afterInt (sign ++ cs1.takeWhile Char.isDigit) (cs1.dropWhile Char.isDigit)
    else .error "Expecting value"
  | [] => .error "Expecting value"
where
  afterInt (pre : List Char) (r : List Char) : Except String (String × List Char) :=
    match r with
    | '.' :: r2 =>
      let frac := r2.takeWhile Char.isDigit
      if frac.isEmpty then .error "Expecting value"
      else afterExp (pre ++ '.' :: frac) (r2.dropWhile Char.isDigit)
    | _ => afterExp pre r
  afterExp (pre : List Char) (r : List Char) : Except String (String × List Char) :=
    match r with
    | e :: r2 =>
      if e = 'e' ∨ e = 'E' then
        let (es, r3) : List Char × List Char :=
          match r2 with
          | '+' :: r3 => (['+'], r3)
          | '-' :: r3 => (['-'], r3)
          | _ => ([], r2)
        let digits := r3.takeWhile Char.isDigit
        if digits.isEmpty then .error "Expecting value"
        else .ok (String.mk (pre ++ e :: es ++ digits), r3.dropWhile Char.isDigit)
      else .ok (String.mk pre, r)
    | [] => .ok (String.mk pre, r)

mutual

/-- Parse one JSON value, skipping leading whitespace. -/
def parseJValue : Nat → List Char → Except String (JValue × List Char)
  | 0, _ => .error "Recursion limit"
  | Nat.succ fuel, cs0 =>
    match cs0.dropWhile jsonWS with
    | [] => .error "Expecting value"
    | '{' :: rest =>
      match rest.dropWhile jsonWS with
      | '}' :: rest2 => .ok (.jobj [], rest2)
      | _ => parseJMembers fuel rest []
    | '[' :: rest =>
      match rest.dropWhile jsonWS with
      | ']' :: rest2 => .ok (.jarr [], rest2)
      | _ => parseJItems fuel rest []
    | '"' :: rest => (parseJStringAux rest []).map (fun p => (.jstr p.1, p.2))
    | 't' :: 'r' :: 'u' :: 'e' :: rest => .ok (.jbool true, rest)
    | 'f' :: 'a' :: 'l' :: 's' :: 'e' :: rest => .ok (.jbool false, rest)
    | 'n' :: 'u' :: 'l' :: 'l' :: rest => .ok (.jnull, rest)
    | 'N' :: 'a' :: 'N' :: rest => .ok (.jnum "NaN", rest)
    | 'I' :: 'n' :: 'f' :: 'i' :: 'n' :: 'i' :: 't' :: 'y' :: rest =>
      .ok (.jnum "Infinity", rest)
    | '-' :: 'I' :: 'n' :: 'f' :: 'i' :: 'n' :: 'i' :: 't' :: 'y' :: rest =>
      .ok (.jnum "-Infinity", rest)
    | cs => (parseJNumber cs).map (fun p => (.jnum p.1, p.2))

/-- Parse the members of a JSON object (after the opening brace; at least
one member present). -/
def parseJMembers : Nat → List Char → List (String × JValue) →
    Except String (JValue × List Char)
  | 0, _, _ => .error "Recursion limit"
  | Nat.succ fuel, cs, acc =>
    match cs.dropWhile jsonWS with
    | '"' :: rest =>
      match parseJStringAux rest [] with
      | .error e => .error e
      | .ok (key, rest2) =>
        match rest2.dropWhile jsonWS with
        | ':' :: rest3 =>
          match parseJValue fuel rest3 with
          | .error e => .error e
          | .ok (v, rest4) =>
            let acc' := pyDictSet acc key v
            match rest4.dropWhile jsonWS with
            | ',' :: rest5 => parseJMembers fuel rest5 acc'
            | '}' :: rest5 => .ok (.jobj acc', rest5)
            | _ => .error "Expecting ',' delimiter"
        | _ => .error "Expecting ':' delimiter"
    | _ => .error "Expecting property name enclosed in double quotes"

/-- Parse the items of a JSON array (after the opening bracket; at least
one item present). -/
def parseJItems : Nat → List Char → List JValue → Except String (JValue × List Char)
  | 0, _, _ => .error "Recursion limit"
  | Nat.succ fuel, cs, acc =>
    match parseJValue fuel cs with
    | .error e => .error e
    | .ok (v, rest) =>
      match rest.dropWhile jsonWS with
      | ',' :: rest2 => parseJItems fuel rest2 (acc ++ [v])
      | ']' :: rest2 => .ok (.jarr (acc ++ [v]), rest2)
      | _ => .error "Expecting ',' delimiter"

end

/-- `json.loads`: parse one value and require only whitespace to follow. -/
def jsonLoads (s : String) : Except String JValue :=
  match parseJValue (s.length + 1) s.data with
  | .error e => .error e
  | .ok (v, rest) =>
    if (rest.dropWhile jsonWS).isEmpty then .ok v else .error "Extra data"

/-! ## Regex fragments used by `llm_handler.py` -/

/-- Python whitespace: the character class of `str.strip()` and of `\s`. -/
def pyWS (c : Char) : Bool :=
  c = ' ' || c = '\t' || c = '\n' || c = '\x0d' || c = '\x0b' || c = '\x0c'

/-- `str.strip()` on a character list. -/
def pyStripList (cs : List Char) : List Char :=
  ((cs.dropWhile pyWS).reverse.dropWhile pyWS).reverse

/-- `re.search(r'\{.*\}', raw, re.DOTALL)`: with a greedy `.*` under DOTALL
the match, when it exists, runs from the first brace-open that has some
brace-close after it (necessarily the first brace-open before the last
brace-close) up to the last brace-close of the string. -/
def extractBraces (cs : List Char) : Option (List Char) :=
  match cs.dropWhile (fun c => c != '{') with
  | [] => none
  | rest =>
    match rest.reverse.dropWhile (fun c => c != '}') with
    | [] => none
    | revSpan => some revSpan.reverse

/-- Python `\w` (word character) for the `\b` boundaries. -/
def isWordChar (c : Char) : Bool := c.isAlphanum || c = '_'

/-- Consume a literal character sequence from the head of the input. -/
def dropLit : List Char → List Char → Option (List Char)
  | [], cs => some cs
  | _ :: _, [] => none
  | l :: ls, c :: cs => if c = l then dropLit ls cs else none

/-- Try to match `return\s+fig\b` at the head of the input (the leading
`\b` is the caller's previous-character check); returns the suffix after
the match.  Greedy `\s+` needs no backtracking because `fig` starts with a
non-whitespace character. -/
def matchRF (cs : List Char) : Option (List Char) :=
  match dropLit ['r', 'e', 't', 'u', 'r', 'n'] cs with
  | none => none
  | some r1 =>
    match r1 with
    | [] => none
    | c :: r2 =>
      if pyWS c then
        match dropLit ['f', 'i', 'g'] (r2.dropWhile pyWS) with
        | none => none
        | some r4 =>
          match r4 with
          | [] => some []
          | d :: _ => if isWordChar d then none else some r4
      else none

/-- The replacement text of `re.sub(r'\breturn\s+fig\b', ...)`:
the characters of `pass  # fig already assigned`. -/
def rfRepl : List Char :=
  ['p', 'a', 's', 's', ' ', ' ', '#', ' ', 'f', 'i', 'g', ' ',
   'a', 'l', 'r', 'e', 'a', 'd', 'y', ' ',
   'a', 's', 's', 'i', 'g', 'n', 'e', 'd']

/-- One pass of `re.sub(r'\breturn\s+fig\b', 'pass  # fig already assigned',
code)`: scan left to right tracking whether the previous character is a word
character (for `\b`), replacing each non-overlapping match.  Fuel-indexed;
fuel `length` suffices since a match consumes at least one character. -/
def rfSubFuel : Nat → Bool → List Char → List Char
  | 0, _, cs => cs
  | Nat.succ fuel, prevW, cs =>
    match cs with
    | [] => []
    | c :: cs' =>
      if prevW then c :: rfSubFuel fuel (isWordChar c) cs'
      else
        match matchRF (c :: cs') with
        | some rest => rfRepl ++ rfSubFuel fuel true rest
        | none => c :: rfSubFuel fuel (isWordChar c) cs'

/-- The full substitution (adequate fuel supplied). -/
def rfSubAll (prevW : Bool) (cs : List Char) : List Char :=
  rfSubFuel cs.length prevW cs

/-- Does the text contain a `\b`-bounded `return\s+fig\b` match, scanning
with the previous-character word flag? -/
def hasRF : Bool → List Char → Bool
  | _, [] => false
  | prevW, c :: cs => (!prevW && (matchRF (c :: cs)).isSome) || hasRF (isWordChar c) cs

/-- `re.sub(r'^```python\s*', '', code)`: anchored, so at most the single
leading occurrence is removed. -/
def stripLeadFencePython (cs : List Char) : List Char :=
  match dropLit ("```python".data) cs with
  | some r => r.dropWhile pyWS
  | none => cs

/-- `re.sub(r'^```\s*', '', code)`. -/
def stripLeadFence (cs : List Char) : List Char :=
  match dropLit ("```".data) cs with
  | some r => r.dropWhile pyWS
  | none => cs

/-- Remove trailing Python-regex whitespace. -/
def dropTrailWS (cs : List Char) : List Char := (cs.reverse.dropWhile pyWS).reverse

/-- `re.sub(r'\s*```$', '', code)`: `$` matches at the end of the string or
just before a final newline, so the single possible match removes a final
backtick fence together with the maximal whitespace run before it. -/
def stripTrailFence (cs : List Char) : List Char :=
  if ("```".data).isSuffixOf cs then dropTrailWS (cs.take (cs.length - 3))
  else if ("```\n".data).isSuffixOf cs then
    dropTrailWS (cs.take (cs.length - 4)) ++ ['\n']
  else cs

/-- The post-processing of `step3_generate_plotting_code` on the success
path: `response.text.strip()`, the three fence substitutions, then the
`return fig` rewrite. -/
def cleanupCode (s : String) : String :=
  String.mk (rfSubAll false
    (stripTrailFence (stripLeadFence (stripLeadFencePython (pyStripList s.data)))))

/-! ## `src/llm_handler.py` -/

/-- The environment of one pipeline run: the credential from
`os.getenv("GEMINI_API_KEY")` and one oracle per network call, giving either
the exception it raises or the text `response.text` it returns.  (The
response may depend on the prompt; quantifying over the oracle covers every
such dependence.) -/
structure GenEnv where
  apiKey : Option String
  svc1 : Except String String
  svc2 : Except String String
  svc3 : Except String String

/-- The `ValueError` message of `_get_model` for a missing credential. -/
def geminiKeyError : String := "GEMINI_API_KEY not set. Please check your .env file."

/-- `_get_model()`: raises when the key is absent or empty (`if not api_key`). -/
def _get_model (env : GenEnv) : Except String Unit :=
  match env.apiKey with
  | none => .error geminiKeyError
  | some k => if k = "" then .error geminiKeyError else .ok ()

/-- The step-1 fallback dict for an unparseable response. -/
def step1FallbackNoParse (di : DataInfo) : JValue :=
  .jobj [("relevant_columns", .jarr ((di.columns.take 2).map JValue.jstr)),
         ("analysis_reasoning",
          .jstr "Could not parse LLM response, using first two columns.")]

/-- The step-1 fallback dict when an exception `e` was caught. -/
def step1FallbackError (di : DataInfo) (e : String) : JValue :=
  .jobj [("relevant_columns", .jarr ((di.columns.take 2).map JValue.jstr)),
         ("analysis_reasoning", .jstr ("Error in step 1: " ++ e))]

/-- `step1_identify_relevant_columns`: `_get_model` runs before the `try`,
so a credential error propagates; inside the `try`, a service exception or
a `json.loads` failure is replaced by a fallback dict, and a response with
no brace span gets the fixed fallback. A successfully parsed span is
returned as-is, unvalidated. -/
def step1_identify_relevant_columns (env : GenEnv) (question : String)
    (di : DataInfo) : Except String JValue :=
  match _get_model env with
  | .error e => .error e
  | .ok _ =>
    match env.svc1 with
    | .error e => .ok (step1FallbackError di e)
    | .ok text =>
      match extractBraces (pyStripList text.data) with
      | none => .ok (step1FallbackNoParse di)
      | some span =>
        match jsonLoads (String.mk span) with
        | .error e => .ok (step1FallbackError di e)
        | .ok v => .ok v

/-- The dict comprehension `{col: data_info['dtypes'].get(col, 'unknown')
for col in relevant_columns}` built for the step-2 prompt, before the `try`:
it raises on a non-iterable `relevant_columns` or unhashable elements; its
value only feeds the prompt. -/
def relevantDtypesCheck (rc : JValue) : Except String Unit :=
  match pyIterElems rc with
  | .error e => .error e
  | .ok elems =>
    if elems.all pyHashable then .ok () else .error "TypeError: unhashable type"

/-- The step-2 fallback proposals built in the `except` clause; the slices
of `relevant_columns` can themselves raise there, which then propagates. -/
def step2Fallback (rc : JValue) (e : String) : Except String JValue := do
  let colsA ← pySliceTake rc 2
  let colsB ← pySliceTake rc 2
  let colsC ← pySliceTake rc 1
  pure (.jarr
    [.jobj [("viz_type", .jstr "bar"),
            ("justification", .jstr ("Fallback: Bar chart for comparison. Error: " ++ e)),
            ("columns_to_use", colsA)],
     .jobj [("viz_type", .jstr "scatter"),
            ("justification", .jstr "Fallback: Scatter plot for relationships."),
            ("columns_to_use", colsB)],
     .jobj [("viz_type", .jstr "histogram"),
            ("justification", .jstr "Fallback: Histogram for distribution."),
            ("columns_to_use", colsC)]])

/-- `step2_select_chart_types`: `_get_model` and the prompt's dtype
comprehension run before the `try`; inside it, a service error, a missing
brace span (`raise ValueError("Could not parse JSON response")`), a JSON
error, or a failing `result['proposals']` all reach the `except` fallback;
a successful parse returns `result['proposals']` unvalidated. -/
def step2_select_chart_types (env : GenEnv) (question : String) (di : DataInfo)
    (rc : JValue) : Except String JValue :=
  match _get_model env with
  | .error e => .error e
  | .ok _ =>
    match relevantDtypesCheck rc with
    | .error e => .error e
    | .ok _ =>
      match env.svc2 with
      | .error e => step2Fallback rc e
      | .ok text =>
        match extractBraces (pyStripList text.data) with
        | none => step2Fallback rc "Could not parse JSON response"
        | some span =>
          match jsonLoads (String.mk span) with
          | .error e => step2Fallback rc e
          | .ok v =>
            match pyGetItem v "proposals" with
            | .error e => step2Fallback rc e
            | .ok props => .ok props

/-- Python `bool(v)` truthiness (a numeric literal is falsy when its
mantissa is all zeroes). -/
def pyTruthy (v : JValue) : Bool :=
  match v with
  | .jnull => false
  | .jbool b => b
  | .jnum lit =>
    !((lit.data.filter (fun c => c != '-' && c != '+' && c != '.')).takeWhile
        (fun c => c != 'e' && c != 'E')).all (fun c => c = '0')
  | .jstr s => !s.isEmpty
  | .jarr l => !l.isEmpty
  | .jobj fields => !fields.isEmpty

/-- Python `v[0]`: head of a list or string (IndexError when empty), a
`KeyError` on dicts (integer key), `TypeError` otherwise. -/
def pyIndexZero (v : JValue) : Except String JValue :=
  match v with
  | .jarr [] => .error "IndexError: list index out of range"
  | .jarr (a :: _) => .ok a
  | .jstr s =>
    match s.data with
    | [] => .error "IndexError: string index out of range"
    | c :: _ => .ok (.jstr (String.mk [c]))
  | .jobj _ => .error "KeyError: 0"
  | _ => .error "TypeError: object is not subscriptable"

mutual

/-- Python `str(v)` for the f-string interpolation in the step-3 fallback
(strings render bare; containers render with their `repr`). -/
def pyStr : JValue → String
  | .jnull => "None"
  | .jbool true => "True"
  | .jbool false => "False"
  | .jnum lit => lit
  | .jstr s => s
  | .jarr l => "[" ++ pyStrList l ++ "]"
  | .jobj fields => "\x7b" ++ pyStrFields fields ++ "\x7d"

/-- `repr` of list elements, comma-separated. -/
def pyStrList : List JValue → String
  | [] => ""
  | [v] => pyReprItem v
  | v :: rest => pyReprItem v ++ ", " ++ pyStrList rest

/-- `repr` of dict entries, comma-separated. -/
def pyStrFields : List (String × JValue) → String
  | [] => ""
  | [(k, v)] => "'" ++ k ++ "': " ++ pyReprItem v
  | (k, v) :: rest => "'" ++ k ++ "': " ++ pyReprItem v ++ ", " ++ pyStrFields rest

/-- `repr(v)`: like `str(v)` but strings are quoted. -/
def pyReprItem : JValue → String
  | .jstr s => "'" ++ s ++ "'"
  | v => pyStr v

end

/-- Python `str.capitalize()`. -/
def pyCapitalize (s : String) : String :=
  match s.data with
  | [] => ""
  | c :: rest => String.mk (c.toUpper :: rest.map Char.toLower)

/-- The f-string template returned by the step-3 `except` clause (verbatim,
including the trailing space and the continuation indentation; the title
uses `proposal['viz_type'].capitalize()`). -/
def step3FallbackTemplate (vt : String) (xv : String) (e : String) : String :=
  "# Fallback code due to error: " ++ e ++ "\nfig = px." ++ vt ++ "(df, x='" ++
    xv ++ "', \n                                title='" ++ pyCapitalize vt ++
    " Chart')\n"

/-- `step3_generate_plotting_code`: `_get_model` and the prompt (which reads
`proposal['viz_type']` and `proposal.get('columns_to_use', [])`) run before
the `try`; on a successful call the stripped response goes through the fence
and `return fig` rewrites; on a caught exception the fallback f-string is
built, whose own subexpressions (`cols[0]`, `.capitalize()`) can raise and
propagate. -/
def step3_generate_plotting_code (env : GenEnv) (proposal : JValue)
    (di : DataInfo) : Except String String :=
  match _get_model env with
  | .error e => .error e
  | .ok _ =>
    match pyGetItem proposal "viz_type" with
    | .error e => .error e
    | .ok vtv =>
      match env.svc3 with
      | .ok text => .ok (cleanupCode text)
      | .error e =>
        let cols : JValue :=
          match proposal with
          | .jobj fields =>
            match pyLookup fields "columns_to_use" with
            | some v => v
            | none => .jarr ((di.columns.take 2).map JValue.jstr)
          | _ => .jarr []
        do
          let xv ←
            if pyTruthy cols then pyIndexZero cols
            else
              match di.columns with
              | [] => Except.error "IndexError: list index out of range"
              | c :: _ => Except.ok (JValue.jstr c)
          let vts ←
            match vtv with
            | .jstr s => Except.ok s
            | _ => Except.error "AttributeError: object has no attribute capitalize"
          pure (step3FallbackTemplate vts (pyStr xv) e)

/-- The padding dict appended by the `while len(proposals) < num_proposals`
loop (its slice of `relevant_columns` can raise). -/
def padProposal (rc : JValue) : Except String JValue := do
  let c2 ← pySliceTake rc 2
  pure (.jobj [("viz_type", .jstr "bar"),
               ("justification", .jstr "Additional fallback proposal"),
               ("columns_to_use", c2)])

/-- The `for proposal in proposals[:num_proposals]` loop body,
`proposal['step1_analysis'] = step1_result['analysis_reasoning']`: the
right-hand side is evaluated first (possible `KeyError`), then the item
assignment requires a dict. -/
def assignStep1Analysis (s1 : JValue) : List JValue → Except String (List JValue)
  | [] => .ok []
  | p :: ps => do
    let reasoning ← pyGetItem s1 "analysis_reasoning"
    match p with
    | .jobj fields => do
      let rest ← assignStep1Analysis s1 ps
      pure (.jobj (pyDictSet fields "step1_analysis" reasoning) :: rest)
    | _ => throw "TypeError: object does not support item assignment"

/-- Run the assignment loop over the sliced `proposals` value and return the
final `proposals[:num_proposals]`.  A sliced string only avoids raising when
it is empty (no iterations). -/
def assignLoop (s1 : JValue) (sliced : JValue) : Except String JValue :=
  match sliced with
  | .jarr l => do
    let l' ← assignStep1Analysis s1 l
    pure (.jarr l')
  | .jstr s =>
    match s.data with
    | [] => .ok (.jstr s)
    | _ :: _ => do
      let _ ← pyGetItem s1 "analysis_reasoning"
      throw "TypeError: str does not support item assignment"
  | _ => .error "unreachable: a slice is a list or a string"

/-- The dict of the complete-fallback list of
`generate_visualization_proposals`. -/
def completeFallbackProp (di : DataInfo) (e : String) : JValue :=
  .jobj [("viz_type", .jstr "bar"),
         ("justification",
          .jstr ("Error in LLM pipeline: " ++ e ++ ". Using fallback.")),
         ("columns_to_use", .jarr ((di.columns.take 2).map JValue.jstr)),
         ("step1_analysis", .jstr "Error occurred")]

/-- The body of the outer `try` of `generate_visualization_proposals`:
step 1, `step1_result['relevant_columns']`, step 2, the padding loop, the
slice, and the analysis-assignment loop. -/
def gvpTry (env : GenEnv) (question : String) (di : DataInfo) (n : Nat) :
    Except String JValue := do
  let s1 ← step1_identify_relevant_columns env question di
  let rc ← pyGetItem s1 "relevant_columns"
  let props ← step2_select_chart_types env question di rc
  let count ← pyLen props
  let padded ←
    if count < n then
      match props with
      | .jarr l => do
        let pad ← padProposal rc
        pure (JValue.jarr (l ++ List.replicate (n - count) pad))
      | _ => throw "AttributeError: object has no attribute append"
    else pure props
  let sliced ← pySliceTake padded n
  assignLoop s1 sliced

/-- `generate_visualization_proposals` (default `num_proposals = 3`): any
exception escaping the body is caught and replaced by `[fallback] * n`. -/
def generate_visualization_proposals (env : GenEnv) (question : String)
    (di : DataInfo) (n : Nat) : JValue :=
  match gvpTry env question di n with
  | .ok v => v
  | .error e => .jarr (List.replicate n (completeFallbackProp di e))

/-! ## `src/visualization.py`

A DataFrame as `generate_plotly_visualization` observes it: the column
names, the row count, the column lists produced by `select_dtypes`, and
oracles for the data-dependent pandas results (`nunique`, and whether
`groupby(x)[y].sum().nlargest(15)` raises, e.g. `TypeError` on
non-summable data).  Cell values themselves never influence which figure
constructor is reached, only these observations do. -/
structure VDataFrame where
  colNames : List String
  nRows : Nat
  objectCols : List String
  numericCols : List String
  nuniqueOf : String → Nat
  groupTop : String → String → Except String Unit

/-- A plotly figure, recorded as the constructor call that produced it. -/
inductive Fig where
  | pxBar : Option String → Option String → String → Fig
  | pxLine : Option String → Option String → String → Fig
  | pxScatter : Option String → Option String → String → Fig
  | pxHistogram : String → String → Fig
  | pxBox : String → Option String → String → Fig
  | pxViolin : String → Option String → String → Fig
  | pxImshow : String → Fig
  | pxPie : String → String → Fig
  | pxBarData : List String → List Nat → String → Fig
  | styled : Fig → String → Fig

/-- Python `str.title()`: uppercase a letter after a non-letter, lowercase
the rest. -/
def pyTitleAux : Bool → List Char → List Char
  | _, [] => []
  | prevA, c :: rest =>
    (if c.isAlpha then (if prevA then c.toLower else c.toUpper) else c) ::
      pyTitleAux c.isAlpha rest

/-- `col.replace('_', ' ').title()` as used in the chart titles. -/
def colTitle (s : String) : String :=
  String.mk (pyTitleAux false (s.data.map (fun c => if c = '_' then ' ' else c)))

/-- Truthiness of an optional column-name argument (`if x_col and y_col:`
treats `None` and `''` as false). -/
def optTruthy (o : Option String) : Bool :=
  match o with
  | none => false
  | some s => !s.isEmpty

/-- `df.sample(min(1000, len(df)), random_state=42)` when the frame has more
than 1000 rows: row count capped, schema unchanged. -/
def sampledFrame (df : VDataFrame) : VDataFrame :=
  if 1000 < df.nRows then { df with nRows := min 1000 df.nRows } else df

/-- Column membership (`df[c]` raises `KeyError`, and plotly raises
`ValueError`, when `c` is not a column). -/
def hasCol (df : VDataFrame) (c : String) : Bool := df.colNames.contains c

/-- The `if viz_type == ...` dispatch chain inside the `try` of
`generate_plotly_visualization`: every pandas subscript, `sort_values`,
`select_dtypes`-derived indexing and plotly column reference that can raise
is modelled as an `Except` failure. -/
def vizBranch (dfs df : VDataFrame) (viz : String) (x y : Option String) :
    Except String Fig :=
  if viz = "bar" then
    if optTruthy x && optTruthy y then
      let xc := x.getD ""
      let yc := y.getD ""
      if hasCol dfs xc then
        if 20 < dfs.nuniqueOf xc then
          match (if hasCol df yc then df.groupTop xc yc
                 else .error ("KeyError: " ++ yc)) with
          | .error e => .error e
          | .ok _ => .ok (.pxBar (some xc) (some yc)
              (colTitle yc ++ " by " ++ colTitle xc))
        else
          if hasCol dfs yc then
            .ok (.pxBar (some xc) (some yc) (colTitle yc ++ " by " ++ colTitle xc))
          else .error ("ValueError: value of 'y' is not the name of a column: " ++ yc)
      else .error ("KeyError: " ++ xc)
    else if optTruthy x then
      let xc := x.getD ""
      if hasCol df xc then
        .ok (.pxBar (some xc) (some "count")
          ("Top 15 " ++ colTitle xc ++ " (by Count)"))
      else .error ("KeyError: " ++ xc)
    else
      match df.objectCols with
      | t :: _ =>
        if hasCol df t then
          .ok (.pxBar (some t) (some "count") ("Top 15 " ++ colTitle t))
        else .error ("KeyError: " ++ t)
      | [] =>
        match df.colNames with
        | t :: _ => .ok (.pxBar (some t) (some "count") ("Top 15 " ++ colTitle t))
        | [] => .error "IndexError: index 0 is out of bounds"
  else if viz = "line" then
    if optTruthy x && optTruthy y then
      let xc := x.getD ""
      let yc := y.getD ""
      if hasCol dfs xc then
        if hasCol dfs yc then
          .ok (.pxLine (some xc) (some yc) (colTitle yc ++ " over " ++ colTitle xc))
        else .error ("ValueError: value of 'y' is not the name of a column: " ++ yc)
      else .error ("KeyError: " ++ xc)
    else
      match df.numericCols with
      | n0 :: _ =>
        let yt := if optTruthy y then y.getD "" else n0
        if hasCol dfs yt then .ok (.pxLine none (some yt) ("Trend of " ++ colTitle yt))
        else .error ("ValueError: value of 'y' is not the name of a column: " ++ yt)
      | [] => .error "No numeric columns for line plot"
  else if viz = "scatter" then
    if optTruthy x && optTruthy y then
      let xc := x.getD ""
      let yc := y.getD ""
      if hasCol dfs xc then
        if hasCol dfs yc then
          .ok (.pxScatter (some xc) (some yc)
            ("Relationship: " ++ colTitle xc ++ " vs " ++ colTitle yc))
        else .error ("ValueError: value of 'y' is not the name of a column: " ++ yc)
      else .error ("ValueError: value of 'x' is not the name of a column: " ++ xc)
    else
      match df.numericCols with
      | n0 :: n1 :: _ =>
        let xt := if optTruthy x then x.getD "" else n0
        let yt := if optTruthy y then y.getD "" else n1
        if hasCol dfs xt then
          if hasCol dfs yt then
            .ok (.pxScatter (some xt) (some yt) (colTitle xt ++ " vs " ++ colTitle yt))
          else .error ("ValueError: value of 'y' is not the name of a column: " ++ yt)
        else .error ("ValueError: value of 'x' is not the name of a column: " ++ xt)
      | _ => .error "Need at least 2 numeric columns for scatter plot"
  else if viz = "histogram" then
    if optTruthy x then
      let xc := x.getD ""
      if hasCol dfs xc then
        .ok (.pxHistogram xc ("Distribution of " ++ colTitle xc))
      else .error ("ValueError: value of 'x' is not the name of a column: " ++ xc)
    else
      match df.numericCols with
      | n0 :: _ =>
        if hasCol dfs n0 then .ok (.pxHistogram n0 ("Distribution of " ++ colTitle n0))
        else .error ("ValueError: value of 'x' is not the name of a column: " ++ n0)
      | [] =>
        match df.colNames with
        | t :: _ => .ok (.pxHistogram t ("Distribution of " ++ colTitle t))
        | [] => .error "IndexError: index 0 is out of bounds"
  else if viz = "box" then
    if optTruthy y then
      let yc := y.getD ""
      if hasCol dfs yc then
        if optTruthy x then
          let xc := x.getD ""
          if hasCol dfs xc then
            .ok (.pxBox yc (some xc) ("Box Plot of " ++ yc ++ " by " ++ xc))
          else .error ("ValueError: value of 'x' is not the name of a column: " ++ xc)
        else .ok (.pxBox yc none ("Box Plot of " ++ yc))
      else .error ("ValueError: value of 'y' is not the name of a column: " ++ yc)
    else
      match df.numericCols with
      | n0 :: _ =>
        if hasCol dfs n0 then .ok (.pxBox n0 none ("Box Plot of " ++ n0))
        else .error ("ValueError: value of 'y' is not the name of a column: " ++ n0)
      | [] => .error "Need numeric column for box plot"
  else if viz = "violin" then
    if optTruthy y then
      let yc := y.getD ""
      if hasCol dfs yc then
        if optTruthy x then
          let xc := x.getD ""
          if hasCol dfs xc then
            .ok (.pxViolin yc (some xc) ("Violin Plot of " ++ yc ++ " by " ++ xc))
          else .error ("ValueError: value of 'x' is not the name of a column: " ++ xc)
        else .ok (.pxViolin yc none ("Violin Plot of " ++ yc))
      else .error ("ValueError: value of 'y' is not the name of a column: " ++ yc)
    else
      match df.numericCols with
      | n0 :: _ =>
        if hasCol dfs n0 then .ok (.pxViolin n0 none ("Violin Plot of " ++ n0))
        else .error ("ValueError: value of 'y' is not the name of a column: " ++ n0)
      | [] => .error "Need numeric column for violin plot"
  else if viz = "heatmap" then
    if 2 ≤ df.numericCols.length then
      if df.numericCols.all (hasCol df) then .ok (.pxImshow "Correlation Heatmap")
      else .error "KeyError: numeric columns"
    else .error "Need at least 2 numeric columns for heatmap"
  else if viz = "pie" then
    if optTruthy x then
      let xc := x.getD ""
      if hasCol df xc then .ok (.pxPie xc ("Distribution of " ++ xc))
      else .error ("KeyError: " ++ xc)
    else
      match df.objectCols with
      | t :: _ =>
        if hasCol df t then .ok (.pxPie t ("Distribution of " ++ t))
        else .error ("KeyError: " ++ t)
      | [] =>
        match df.colNames with
        | t :: _ => .ok (.pxPie t ("Distribution of " ++ t))
        | [] => .error "IndexError: index 0 is out of bounds"
  else
    match df.colNames with
    | c0 :: _ => .ok (.pxBar (some c0) none ("Default Chart: " ++ c0))
    | [] => .error "IndexError: index 0 is out of bounds"

/-- The whole `try` body: the dispatch chain followed by the fixed
`update_layout` / `update_traces` styling (cosmetic constants, modelled as
a wrapper recording the applied viz-type-dependent style sheet). -/
def vizTryBody (df : VDataFrame) (viz : String) (x y : Option String) :
    Except String Fig :=
  (vizBranch (sampledFrame df) df viz x y).map (fun f => Fig.styled f viz)

/-- `generate_plotly_visualization`: the sampling step before the `try`
cannot raise, and the `except` clause replaces any exception `e` with the
ultimate fallback `px.bar(x=['Error'], y=[1], title=f"Error: {str(e)}")`. -/
def generate_plotly_visualization (df : VDataFrame) (viz : String)
    (x y : Option String) : Except String Fig :=
  match vizTryBody df viz x y with
  | .ok f => .ok f
  | .error e => .ok (.pxBarData ["Error"] [1] ("Error: " ++ e))

/-- The chart-kind vocabulary of the dispatch table (and of the step-2
prompt). -/
def chartVocab : List String :=
  ["bar", "line", "scatter", "histogram", "box", "violin", "heatmap", "pie"]

/-- On the fallback paths of `step2_select_chart_types` the caught
exception's fallback is used: the call failed, or the response had no brace
span, or the span was malformed JSON, or `result['proposals']` raised. -/
def step2FallbackTrigger (env : GenEnv) : Bool :=
  match env.svc2 with
  | .error _ => true
  | .ok text =>
    match extractBraces (pyStripList text.data) with
    | none => true
    | some span =>
      match jsonLoads (String.mk span) with
      | .error _ => true
      | .ok v =>
        match pyGetItem v "proposals" with
        | .error _ => true
        | .ok _ => false

/-- The `analysis_reasoning` string of a step-1 result, when present. -/
def analysisReasoningOf (r : Except String JValue) : Option String :=
  match r with
  | .ok (.jobj fields) =>
    match pyLookup fields "analysis_reasoning" with
    | some (.jstr s) => some s
    | _ => none
  | _ => none

/-- The concrete value `step2Fallback` produces on the list
`(data_info['columns'][:2])` of step-1-fallback relevant columns. -/
def step2FbList (di : DataInfo) (e : String) : List JValue :=
  [.jobj [("viz_type", .jstr "bar"),
          ("justification",
           .jstr ("Fallback: Bar chart for comparison. Error: " ++ e)),
          ("columns_to_use",
           .jarr (((di.columns.take 2).map JValue.jstr).take 2))],
   .jobj [("viz_type", .jstr "scatter"),
          ("justification", .jstr "Fallback: Scatter plot for relationships."),
          ("columns_to_use",
           .jarr (((di.columns.take 2).map JValue.jstr).take 2))],
   .jobj [("viz_type", .jstr "histogram"),
          ("justification", .jstr "Fallback: Histogram for distribution."),
          ("columns_to_use",
           .jarr (((di.columns.take 2).map JValue.jstr).take 1))]]

/-- The concrete padding dict for the same relevant-columns list. -/
def padValue (di : DataInfo) : JValue :=
  .jobj [("viz_type", .jstr "bar"),
         ("justification", .jstr "Additional fallback proposal"),
         ("columns_to_use",
          .jarr (((di.columns.take 2).map JValue.jstr).take 2))]

/-! ## Concrete fixtures (the spec's §8 scenario and counterexample inputs) -/

/-- The descriptor of the spec's end-to-end CSV: columns
`name, age, city, salary`, 4 rows. -/
def diFix : DataInfo :=
  ⟨["name", "age", "city", "salary"],
   [("name", "object"), ("age", "int64"), ("city", "object"), ("salary", "int64")],
   (4, 4), []⟩

/-- No credential configured. -/
def envNoKeyFix : GenEnv := ⟨none, .error "net", .error "net", .error "net"⟩

/-- Credential present, every network call fails. -/
def envDownFix : GenEnv := ⟨some "key", .error "net1", .error "net2", .error "net3"⟩

/-- Step-2 response parsing to a single proposal of kind `donut`. -/
def envDonutFix : GenEnv :=
  ⟨some "key", .error "net1",
   .ok "\x7b\"proposals\": [\x7b\"viz_type\": \"donut\"\x7d]\x7d", .error "net3"⟩

/-- Step-1 response with no brace-delimited span. -/
def envNoBraceFix : GenEnv :=
  ⟨some "key", .ok "no json here", .error "net2", .error "net3"⟩

/-- Step-1 response whose extracted span is malformed JSON. -/
def envBadJsonFix : GenEnv :=
  ⟨some "key", .ok "\x7boops\x7d", .error "net2", .error "net3"⟩

/-- Step-3 response whose fenced body is a foreign return statement. -/
def envReturnFooFix : GenEnv :=
  ⟨some "key", .error "n", .error "n", .ok "```python\nreturn foo\n```"⟩

/-- Step-3 response with an interior code fence. -/
def envMidFenceFix : GenEnv :=
  ⟨some "key", .error "n", .error "n", .ok "x = 1\n```\ny = 2"⟩

/-- A well-formed proposal record. -/
def propFix : JValue :=
  .jobj [("viz_type", .jstr "scatter"),
         ("columns_to_use", .jarr [.jstr "age", .jstr "salary"])]

/-- A renderer frame with no numeric columns. -/
def vdfNoNumFix : VDataFrame :=
  ⟨["name"], 3, ["name"], [], fun _ => 3, fun _ _ => .ok ()⟩

/-- The spec's CSV as loaded. -/
def pdfFix : PDataFrame :=
  ⟨[("name", "object"), ("age", "int64"), ("city", "object"), ("salary", "int64")],
   4, []⟩

/-- A header-only CSV: two columns, zero rows. -/
def pdfEmptyFix : PDataFrame := ⟨[("col1", "object"), ("col2", "object")], 0, []⟩

/-! ## Theorems -/

/-! Helper lemmas about the dict model. -/

theorem pyDictSet_of_not_mem {α : Type} (d : List (String × α)) (k : String) (v : α)
    (h : k ∉ d.map Prod.fst) : pyDictSet d k v = d ++ [(k, v)] := by
  induction d with
  | nil => rfl
  | cons p rest ih =>
    obtain ⟨k', v'⟩ := p
    simp only [List.map_cons, List.mem_cons] at h
    push_neg at h
    simp only [pyDictSet, if_neg (Ne.symm h.1), ih h.2, List.cons_append]

theorem pyDictOfPairs_foldl_nodup {α : Type} (l : List (String × α)) :
    ∀ acc : List (String × α),
    (acc.map Prod.fst ++ l.map Prod.fst).Nodup →
    l.foldl (fun d p => pyDictSet d p.1 p.2) acc = acc ++ l := by
  induction l with
  | nil => intro acc _; simp
  | cons p rest ih =>
    intro acc hn
    rw [List.map_cons] at hn
    have hmem : p.1 ∉ acc.map Prod.fst := by
      intro hc
      have hd := (List.nodup_append.mp hn).2.2
      exact hd hc (List.mem_cons_self _ _)
    have hstep : pyDictSet acc p.1 p.2 = acc ++ [p] := pyDictSet_of_not_mem _ _ _ hmem
    have hn0 : ((acc.map Prod.fst ++ [p.1]) ++ rest.map Prod.fst).Nodup := by
      rw [List.append_assoc]
      simpa using hn
    have hn' : ((acc ++ [p]).map Prod.fst ++ rest.map Prod.fst).Nodup := by
      rw [List.map_append]
      simpa using hn0
    simp only [List.foldl_cons, hstep, ih _ hn']
    simp

theorem pyDictOfPairs_nodup {α : Type} (l : List (String × α))
    (hn : (l.map Prod.fst).Nodup) : pyDictOfPairs l = l := by
  simpa using pyDictOfPairs_foldl_nodup l [] (by simpa using hn)

/-! ### C7 / C8: `data_processor.py` -/

/-- C7: for every well-formed frame (N rows, M distinctly named columns),
`get_data_info` returns a descriptor whose `columns` list has length M,
whose `dtypes` map has exactly M entries, and whose `shape` is (N, M).
(pandas' loaders mangle duplicate header names, so loaded frames always
have distinct column names.) -/
theorem c7_get_data_info_shape (df : PDataFrame)
    (hn : (df.cols.map Prod.fst).Nodup) :
    (get_data_info df).columns.length = df.cols.length ∧
    (get_data_info df).dtypes.length = df.cols.length ∧
    (get_data_info df).shape = (df.nrows, df.cols.length) := by
  refine ⟨by simp [get_data_info], ?_, rfl⟩
  simp [get_data_info, pyDictOfPairs_nodup _ hn]

/-- Witness for C7 at the spec's 4×4 CSV. -/
theorem c7_get_data_info_shape_witness :
    ((pdfFix.cols.map Prod.fst).Nodup) ∧
    ((get_data_info pdfFix).columns.length = 4 ∧
     (get_data_info pdfFix).dtypes.length = 4 ∧
     (get_data_info pdfFix).shape = (4, 4)) :=
  ⟨by decide, c7_get_data_info_shape pdfFix (by decide)⟩

/-- C8: whenever the reader dispatched on the filename loads a table that
is empty (zero rows or zero columns — pandas' `df.empty`), `load_data`
raises the validation `ValueError` and never returns a table. -/
theorem c8_load_data_rejects_empty (filename : String)
    (readCsv readExcel : Except String PDataFrame) (df : PDataFrame)
    (hload : dispatchRead filename readCsv readExcel = .ok df)
    (hempty : pandasEmpty df = true) :
    load_data filename readCsv readExcel =
      .error "Error loading data: The uploaded file is empty" ∧
    ∀ df', load_data filename readCsv readExcel ≠ .ok df' := by
  refine ⟨by simp [load_data, hload, hempty], ?_⟩
  intro df' h
  simp [load_data, hload, hempty] at h

/-- Witness for C8 at a header-only CSV (2 columns, 0 rows). -/
theorem c8_load_data_rejects_empty_witness :
    dispatchRead "table.csv" (.ok pdfEmptyFix) (.error "no excel") = .ok pdfEmptyFix ∧
    pandasEmpty pdfEmptyFix = true ∧
    load_data "table.csv" (.ok pdfEmptyFix) (.error "no excel") =
      .error "Error loading data: The uploaded file is empty" :=
  ⟨rfl, rfl,
   (c8_load_data_rejects_empty "table.csv" _ _ pdfEmptyFix rfl rfl).1⟩

/-! ### C6 / C9: `visualization.py` -/

/-- C9: `generate_plotly_visualization` is total — for every frame,
viz-type string and optional column choices (present in the frame or not)
it returns a figure, and whenever the `try` body raises the returned figure
is the error-labelled fallback bar chart
`px.bar(x=['Error'], y=[1], title=f"Error: {e}")`. -/
theorem c9_generate_plotly_visualization_total (df : VDataFrame) (viz : String)
    (x y : Option String) :
    (∃ f, generate_plotly_visualization df viz x y = .ok f) ∧
    (∀ e, vizTryBody df viz x y = .error e →
      generate_plotly_visualization df viz x y =
        .ok (Fig.pxBarData ["Error"] [1] ("Error: " ++ e))) := by
  constructor
  · cases h : vizTryBody df viz x y with
    | ok f => exact ⟨f, by simp [generate_plotly_visualization, h]⟩
    | error e =>
      exact ⟨Fig.pxBarData ["Error"] [1] ("Error: " ++ e),
        by simp [generate_plotly_visualization, h]⟩
  · intro e he
    simp [generate_plotly_visualization, he]

/-- Witness for C9: a scatter request on a frame with no numeric columns
raises internally and yields the error-labelled fallback chart. -/
theorem c9_generate_plotly_visualization_total_witness :
    vizTryBody vdfNoNumFix "scatter" none none =
      .error "Need at least 2 numeric columns for scatter plot" ∧
    generate_plotly_visualization vdfNoNumFix "scatter" none none =
      .ok (Fig.pxBarData ["Error"] [1]
        ("Error: " ++ "Need at least 2 numeric columns for scatter plot")) :=
  ⟨rfl,
   (c9_generate_plotly_visualization_total vdfNoNumFix "scatter" none none).2 _ rfl⟩

/-! ### Helper lemmas for the `llm_handler.py` pipeline -/

theorem exceptBind_ok {α β : Type} (a : α) (f : α → Except String β) :
    (Except.ok a >>= f) = f a := rfl

theorem exceptBind_err {α β : Type} (e : String) (f : α → Except String β) :
    ((Except.error e : Except String α) >>= f) = .error e := rfl

theorem exceptPure_bind {α β : Type} (a : α) (f : α → Except String β) :
    ((pure a : Except String α) >>= f) = f a := rfl

theorem exceptPure_eq_ok {α : Type} (a : α) :
    (pure a : Except String α) = .ok a := rfl

theorem exceptBind_ok_iff {α β : Type} (x : Except String α)
    (f : α → Except String β) (b : β) :
    (x >>= f) = .ok b ↔ ∃ a, x = .ok a ∧ f a = .ok b := by
  cases x <;> simp [Bind.bind, Except.bind]

theorem pyLookup_pyDictSet {α : Type} (d : List (String × α)) (k : String) (v : α) :
    pyLookup (pyDictSet d k v) k = some v := by
  induction d with
  | nil => simp [pyDictSet, pyLookup, List.find?]
  | cons p rest ih =>
    obtain ⟨k', v'⟩ := p
    by_cases h : k' = k
    · simp [pyDictSet, h, pyLookup, List.find?]
    · simp only [pyDictSet, if_neg h, pyLookup, List.find?]
      simpa [pyLookup, beq_eq_false_iff_ne.mpr h] using ih

theorem all_jstr_hashable (l : List String) :
    (l.map JValue.jstr).all pyHashable = true := by
  induction l with
  | nil => rfl
  | cons a l ih => simp [pyHashable, ih]

/-- Forward run of the analysis-assignment loop: on a list of dicts it
succeeds, preserves the length, and stores the reasoning under
`step1_analysis` in every element. -/
theorem assignStep1Analysis_ok (s1 : JValue) (r : JValue)
    (hr : pyGetItem s1 "analysis_reasoning" = .ok r) :
    ∀ l : List JValue, (∀ p ∈ l, ∃ fields, p = .jobj fields) →
    ∃ l', assignStep1Analysis s1 l = .ok l' ∧ l'.length = l.length ∧
      ∀ p' ∈ l', ∃ fields', p' = .jobj fields' ∧
        pyLookup fields' "step1_analysis" = some r := by
  intro l
  induction l with
  | nil => exact fun _ => ⟨[], rfl, rfl, by simp⟩
  | cons p ps ih =>
    intro hall
    obtain ⟨fields, rfl⟩ := hall p (by simp)
    obtain ⟨l', hl', hlen, hmem⟩ := ih (fun p' hp' => hall p' (by simp [hp']))
    refine ⟨.jobj (pyDictSet fields "step1_analysis" r) :: l', ?_, by simp [hlen], ?_⟩
    · simp [assignStep1Analysis, hr, hl', exceptBind_ok]
    · intro p' hp'
      rcases List.mem_cons.mp hp' with h | h
      · exact ⟨_, h, pyLookup_pyDictSet _ _ _⟩
      · exact hmem p' h

/-- Backward reading of the loop: any successful output consists of dicts
whose `step1_analysis` entry holds exactly the step-1 reasoning
`step1_result['analysis_reasoning']`. -/
theorem assignStep1Analysis_shape (s1 : JValue) :
    ∀ l l', assignStep1Analysis s1 l = .ok l' →
    ∀ p ∈ l', ∃ fields r, p = .jobj fields ∧
      pyGetItem s1 "analysis_reasoning" = .ok r ∧
      pyLookup fields "step1_analysis" = some r := by
  intro l
  induction l with
  | nil =>
    intro l' h p hp
    simp only [assignStep1Analysis] at h
    cases h
    simp at hp
  | cons q qs ih =>
    intro l' h p hp
    simp only [assignStep1Analysis] at h
    rw [exceptBind_ok_iff] at h
    obtain ⟨r, hr, h⟩ := h
    cases q with
    | jobj fields =>
      rw [exceptBind_ok_iff] at h
      obtain ⟨rest, hrest, h⟩ := h
      cases h
      rcases List.mem_cons.mp hp with h | h
      · exact ⟨_, r, h, hr, pyLookup_pyDictSet _ _ _⟩
      · exact ih rest hrest p h
    | jnull => simp [throw, throwThe, MonadExceptOf.throw] at h
    | jbool b => simp [throw, throwThe, MonadExceptOf.throw] at h
    | jnum s => simp [throw, throwThe, MonadExceptOf.throw] at h
    | jstr s => simp [throw, throwThe, MonadExceptOf.throw] at h
    | jarr l => simp [throw, throwThe, MonadExceptOf.throw] at h

/-- Any successful result of the assignment loop exposes only dicts whose
`step1_analysis` entry holds exactly the step-1 reasoning. -/
theorem assignLoop_ok_shape (s1 sliced v : JValue)
    (h : assignLoop s1 sliced = .ok v) :
    ∀ p ∈ pyElems v, ∃ fields r, p = .jobj fields ∧
      pyGetItem s1 "analysis_reasoning" = .ok r ∧
      pyLookup fields "step1_analysis" = some r := by
  cases sliced with
  | jarr l =>
    simp only [assignLoop] at h
    rw [exceptBind_ok_iff] at h
    obtain ⟨l', hl', h⟩ := h
    cases h
    intro p hp
    exact assignStep1Analysis_shape s1 l l' hl' p (by simpa [pyElems] using hp)
  | jstr s =>
    simp only [assignLoop] at h
    rcases hd : s.data with _ | ⟨c, cs⟩
    · rw [hd] at h
      cases h
      intro p hp
      simp [pyElems, hd] at hp
    · rw [hd] at h
      rw [exceptBind_ok_iff] at h
      obtain ⟨r, hr, h⟩ := h
      simp [throw, throwThe, MonadExceptOf.throw] at h
  | jnull => cases h
  | jbool b => cases h
  | jnum s => cases h
  | jobj fields => cases h

/-! ### C1 / C3 / C10: `generate_visualization_proposals` -/

/-- C1: when every external-service call fails, the full pipeline still
returns a list of exactly `num_proposals` proposals (and, being total, it
raises no exception). -/
theorem c1_all_calls_fail_exact_count (env : GenEnv) (q : String) (di : DataInfo)
    (n : Nat) (hc : di.columns ≠ [])
    (h1 : ∃ e, env.svc1 = .error e) (h2 : ∃ e, env.svc2 = .error e) :
    ∃ l, generate_visualization_proposals env q di n = .jarr l ∧ l.length = n := by
  obtain ⟨e1, hs1⟩ := h1
  obtain ⟨e2, hs2⟩ := h2
  cases hm : _get_model env with
  | error e =>
    have hstep1 : step1_identify_relevant_columns env q di = .error e := by
      simp [step1_identify_relevant_columns, hm]
    have hg : gvpTry env q di n = .error e := by
      simp only [gvpTry, hstep1, exceptBind_err]
    exact ⟨List.replicate n (completeFallbackProp di e),
      by simp [generate_visualization_proposals, hg], by simp⟩
  | ok u =>
    have hstep1 : step1_identify_relevant_columns env q di =
        .ok (step1FallbackError di e1) := by
      simp [step1_identify_relevant_columns, hm, hs1]
    have hrc : pyGetItem (step1FallbackError di e1) "relevant_columns" =
        .ok (.jarr ((di.columns.take 2).map JValue.jstr)) := by
      simp [pyGetItem, step1FallbackError, pyLookup, List.find?]
    have hr : pyGetItem (step1FallbackError di e1) "analysis_reasoning" =
        .ok (.jstr ("Error in step 1: " ++ e1)) := by
      simp [pyGetItem, step1FallbackError, pyLookup, List.find?]
    have hdt : relevantDtypesCheck (.jarr ((di.columns.take 2).map JValue.jstr)) =
        .ok () := by
      simp only [relevantDtypesCheck, pyIterElems, all_jstr_hashable, if_pos]
    have hstep2 : step2_select_chart_types env q di
        (.jarr ((di.columns.take 2).map JValue.jstr)) =
        step2Fallback (.jarr ((di.columns.take 2).map JValue.jstr)) e2 := by
      simp only [step2_select_chart_types, hm, hdt, hs2]
    have hfb : step2Fallback (.jarr ((di.columns.take 2).map JValue.jstr)) e2 =
        .ok (.jarr (step2FbList di e2)) := rfl
    have hpad : padProposal (.jarr ((di.columns.take 2).map JValue.jstr)) =
        .ok (padValue di) := rfl
    have hjobj : ∀ p ∈ step2FbList di e2 ++
        List.replicate (n - 3) (padValue di), ∃ fields, p = .jobj fields := by
      intro p hp
      rcases List.mem_append.mp hp with h | h
      · simp only [step2FbList, List.mem_cons, List.not_mem_nil, or_false] at h
        rcases h with rfl | rfl | rfl
        · exact ⟨_, rfl⟩
        · exact ⟨_, rfl⟩
        · exact ⟨_, rfl⟩
      · rw [List.eq_of_mem_replicate h]
        exact ⟨_, rfl⟩
    have hplen : pyLen (.jarr (step2FbList di e2)) = .ok 3 := rfl
    rcases Nat.lt_or_ge 3 n with hn | hn
    · obtain ⟨l', hassign, hlen', _⟩ :=
        assignStep1Analysis_ok _ _ hr
          ((step2FbList di e2 ++ List.replicate (n - 3) (padValue di)).take n)
          (fun p hp => hjobj p (List.take_subset _ _ hp))
      have hg : gvpTry env q di n = .ok (.jarr l') := by
        simp only [gvpTry, hstep1, exceptBind_ok, hrc, hstep2, hfb, hplen]
        rw [if_pos hn]
        simp only [hpad, exceptBind_ok, exceptPure_bind, pySliceTake, assignLoop]
        simp only [step2FbList, List.cons_append, List.nil_append] at hassign ⊢
        rw [hassign]
        rfl
      refine ⟨l', by simp [generate_visualization_proposals, hg], ?_⟩
      rw [hlen']
      simp only [List.length_take, List.length_append, List.length_replicate,
        step2FbList, List.length_cons, List.length_nil]
      omega
    · obtain ⟨l', hassign, hlen', _⟩ :=
        assignStep1Analysis_ok _ _ hr ((step2FbList di e2).take n)
          (fun p hp => hjobj p (List.mem_append_left _ (List.take_subset _ _ hp)))
      have hg : gvpTry env q di n = .ok (.jarr l') := by
        simp only [gvpTry, hstep1, exceptBind_ok, hrc, hstep2, hfb, hplen]
        rw [if_neg (Nat.not_lt.mpr hn)]
        simp only [pySliceTake, exceptBind_ok, exceptPure_bind, assignLoop]
        simp only [step2FbList] at hassign ⊢
        rw [hassign]
        rfl
      refine ⟨l', by simp [generate_visualization_proposals, hg], ?_⟩
      rw [hlen']
      simp only [List.length_take, step2FbList, List.length_cons, List.length_nil]
      omega

/-- Witness for C1: both calls fail on the spec's descriptor, requesting 5
proposals. -/
theorem c1_all_calls_fail_exact_count_witness :
    diFix.columns ≠ [] ∧ (∃ e, envDownFix.svc1 = .error e) ∧
    (∃ e, envDownFix.svc2 = .error e) ∧
    ∃ l, generate_visualization_proposals envDownFix "q" diFix 5 = .jarr l ∧
      l.length = 5 :=
  ⟨by decide, ⟨"net1", rfl⟩, ⟨"net2", rfl⟩,
   c1_all_calls_fail_exact_count envDownFix "q" diFix 5 (by decide)
     ⟨"net1", rfl⟩ ⟨"net2", rfl⟩⟩

/-- C3: with no service credential configured, requesting 3 proposals for a
descriptor with a non-empty column list yields exactly 3 fallback proposals,
each tagged `bar ∈ {bar, scatter, histogram}`, whose justification text
contains the literal configuration-error message of `_get_model`. -/
theorem c3_no_credential_fallback_proposals (env : GenEnv) (q : String)
    (di : DataInfo) (hk : env.apiKey = none) (hc : di.columns ≠ []) :
    ∃ l, generate_visualization_proposals env q di 3 = .jarr l ∧ l.length = 3 ∧
      ∀ p ∈ l, ∃ fields, p = .jobj fields ∧
        pyLookup fields "viz_type" = some (.jstr "bar") ∧
        "bar" ∈ (["bar", "scatter", "histogram"] : List String) ∧
        ∃ pre post, pyLookup fields "justification" =
          some (.jstr (pre ++ geminiKeyError ++ post)) := by
  have hm : _get_model env = .error geminiKeyError := by simp [_get_model, hk]
  have hstep1 : step1_identify_relevant_columns env q di = .error geminiKeyError := by
    simp [step1_identify_relevant_columns, hm]
  have hg : gvpTry env q di 3 = .error geminiKeyError := by
    simp only [gvpTry, hstep1, exceptBind_err]
  refine ⟨List.replicate 3 (completeFallbackProp di geminiKeyError),
    by simp [generate_visualization_proposals, hg], by simp, ?_⟩
  intro p hp
  rw [List.eq_of_mem_replicate hp]
  refine ⟨_, rfl, rfl, by simp, "Error in LLM pipeline: ", ". Using fallback.", rfl⟩

/-- Witness for C3 at the spec's 4-column descriptor. -/
theorem c3_no_credential_fallback_proposals_witness :
    envNoKeyFix.apiKey = none ∧ diFix.columns ≠ [] ∧
    ∃ l, generate_visualization_proposals envNoKeyFix "q" diFix 3 = .jarr l ∧
      l.length = 3 ∧
      ∀ p ∈ l, ∃ fields, p = .jobj fields ∧
        pyLookup fields "viz_type" = some (.jstr "bar") ∧
        "bar" ∈ (["bar", "scatter", "histogram"] : List String) ∧
        ∃ pre post, pyLookup fields "justification" =
          some (.jstr (pre ++ geminiKeyError ++ post)) :=
  ⟨rfl, by decide,
   c3_no_credential_fallback_proposals envNoKeyFix "q" diFix rfl (by decide)⟩

/-- C10: every element of the value returned by
`generate_visualization_proposals` is a dict carrying a `step1_analysis`
entry, and the entry's value is pinned on both paths: on the
complete-fallback path every proposal carries the fixed `"Error occurred"`
analysis text, and on the success path every returned proposal carries a
copy of the step-1 reasoning `step1_result['analysis_reasoning']`. -/
theorem c10_every_proposal_has_step1_analysis (env : GenEnv) (q : String)
    (di : DataInfo) (n : Nat) :
    (∀ p ∈ pyElems (generate_visualization_proposals env q di n),
      ∃ fields, p = .jobj fields ∧ (pyLookup fields "step1_analysis").isSome) ∧
    (∀ e, gvpTry env q di n = .error e →
      ∀ p ∈ pyElems (generate_visualization_proposals env q di n),
        ∃ fields, p = .jobj fields ∧
          pyLookup fields "step1_analysis" = some (.jstr "Error occurred")) ∧
    (∀ v s1, gvpTry env q di n = .ok v →
      step1_identify_relevant_columns env q di = .ok s1 →
      generate_visualization_proposals env q di n = v ∧
      ∀ p ∈ pyElems v, ∃ fields r, p = .jobj fields ∧
        pyGetItem s1 "analysis_reasoning" = .ok r ∧
        pyLookup fields "step1_analysis" = some r) := by
  have key : ∀ v, gvpTry env q di n = .ok v →
      ∃ s1, step1_identify_relevant_columns env q di = .ok s1 ∧
        ∀ p ∈ pyElems v, ∃ fields r, p = .jobj fields ∧
          pyGetItem s1 "analysis_reasoning" = .ok r ∧
          pyLookup fields "step1_analysis" = some r := by
    intro v hg
    simp only [gvpTry] at hg
    rw [exceptBind_ok_iff] at hg
    obtain ⟨s1, hs1, hg⟩ := hg
    refine ⟨s1, hs1, ?_⟩
    rw [exceptBind_ok_iff] at hg
    obtain ⟨rc, hrc, hg⟩ := hg
    rw [exceptBind_ok_iff] at hg
    obtain ⟨props, hprops, hg⟩ := hg
    rw [exceptBind_ok_iff] at hg
    obtain ⟨count, hcount, hg⟩ := hg
    by_cases hcn : count < n
    · rw [if_pos hcn] at hg
      cases props with
      | jarr l =>
        rw [exceptBind_ok_iff] at hg
        obtain ⟨pad, hpadv, hg⟩ := hg
        rw [exceptPure_bind, exceptBind_ok_iff] at hg
        obtain ⟨sliced, hslice, hg⟩ := hg
        exact assignLoop_ok_shape s1 sliced v hg
      | jnull => simp [throw, throwThe, MonadExceptOf.throw, exceptBind_err] at hg
      | jbool b => simp [throw, throwThe, MonadExceptOf.throw, exceptBind_err] at hg
      | jnum s => simp [throw, throwThe, MonadExceptOf.throw, exceptBind_err] at hg
      | jstr s => simp [throw, throwThe, MonadExceptOf.throw, exceptBind_err] at hg
      | jobj fields =>
        simp [throw, throwThe, MonadExceptOf.throw, exceptBind_err] at hg
    · rw [if_neg hcn, exceptPure_bind, exceptBind_ok_iff] at hg
      obtain ⟨sliced, hslice, hg⟩ := hg
      exact assignLoop_ok_shape s1 sliced v hg
  refine ⟨?_, ?_, ?_⟩
  · intro p hp
    cases hg : gvpTry env q di n with
    | error e =>
      simp only [generate_visualization_proposals, hg, pyElems] at hp
      rw [List.eq_of_mem_replicate hp]
      exact ⟨_, rfl, rfl⟩
    | ok v =>
      simp only [generate_visualization_proposals, hg] at hp
      obtain ⟨s1, _, hall⟩ := key v hg
      obtain ⟨fields, r, hpf, _, hlook⟩ := hall p hp
      exact ⟨fields, hpf, by rw [hlook]; rfl⟩
  · intro e hg p hp
    simp only [generate_visualization_proposals, hg, pyElems] at hp
    rw [List.eq_of_mem_replicate hp]
    exact ⟨_, rfl, rfl⟩
  · intro v s1 hg hs1
    obtain ⟨s1', hs1', hall⟩ := key v hg
    rw [hs1] at hs1'
    injection hs1' with he
    subst he
    exact ⟨by simp [generate_visualization_proposals, hg], hall⟩

/-- Witness for C10: the complete-fallback path at the no-credential run
(fixed `"Error occurred"` analysis) and the success path at a parsed
single-proposal response (copied step-1 reasoning). -/
theorem c10_every_proposal_has_step1_analysis_witness :
    (gvpTry envNoKeyFix "q" diFix 3 = .error geminiKeyError ∧
     completeFallbackProp diFix geminiKeyError ∈
       pyElems (generate_visualization_proposals envNoKeyFix "q" diFix 3) ∧
     ∃ fields, completeFallbackProp diFix geminiKeyError = .jobj fields ∧
       pyLookup fields "step1_analysis" = some (.jstr "Error occurred")) ∧
    (gvpTry envDonutFix "q" diFix 1 =
       .ok (.jarr [.jobj [("viz_type", .jstr "donut"),
                          ("step1_analysis", .jstr "Error in step 1: net1")]]) ∧
     step1_identify_relevant_columns envDonutFix "q" diFix =
       .ok (step1FallbackError diFix "net1") ∧
     ∃ fields r,
       (.jobj [("viz_type", .jstr "donut"),
               ("step1_analysis", .jstr "Error in step 1: net1")] : JValue) =
         .jobj fields ∧
       pyGetItem (step1FallbackError diFix "net1") "analysis_reasoning" = .ok r ∧
       pyLookup fields "step1_analysis" = some r) := by
  have hmem : completeFallbackProp diFix geminiKeyError ∈
      pyElems (generate_visualization_proposals envNoKeyFix "q" diFix 3) := by
    have h : pyElems (generate_visualization_proposals envNoKeyFix "q" diFix 3) =
        List.replicate 3 (completeFallbackProp diFix geminiKeyError) := rfl
    rw [h]
    exact List.mem_replicate.mpr ⟨by decide, rfl⟩
  refine ⟨⟨rfl, hmem, ?_⟩, ⟨rfl, rfl, ?_⟩⟩
  · exact (c10_every_proposal_has_step1_analysis envNoKeyFix "q" diFix 3).2.1
      geminiKeyError rfl _ hmem
  · exact ((c10_every_proposal_has_step1_analysis envDonutFix "q" diFix 1).2.2
      (.jarr [.jobj [("viz_type", .jstr "donut"),
                     ("step1_analysis", .jstr "Error in step 1: net1")]])
      (step1FallbackError diFix "net1") rfl rfl).2 _ (by simp [pyElems])

/-! ### C2: corrected — the success path of step 2 is unvalidated -/

/-- C2 counterexample: a parseable service response carrying a single
proposal of kind `donut` is returned as-is, so step 2 neither returns three
proposals nor stays inside the chart vocabulary. -/
theorem c2_counterexample :
    step2_select_chart_types envDonutFix "q" diFix (.jarr [.jstr "a"]) =
      .ok (.jarr [.jobj [("viz_type", .jstr "donut")]]) ∧
    ([JValue.jobj [("viz_type", JValue.jstr "donut")]]).length = 1 ∧
    (1 : Nat) ≠ 3 ∧ "donut" ∉ chartVocab :=
  ⟨rfl, rfl, by decide, by decide⟩

/-- C2 (amended): on every fallback path — service failure, missing brace
span, malformed JSON, or failing `result['proposals']` — step 2 returns
exactly three proposals, each tagged from `{bar, scatter, histogram}`, a
subset of the vocabulary; on a successfully parsed response it returns the
parsed value unvalidated. -/
theorem c2_amended_fallback_three_from_vocab (env : GenEnv) (q : String)
    (di : DataInfo) (cols : List String) (hm : _get_model env = .ok ())
    (ht : step2FallbackTrigger env = true) :
    ∃ l, step2_select_chart_types env q di (.jarr (cols.map JValue.jstr)) =
      .ok (.jarr l) ∧ l.length = 3 ∧
      ∀ p ∈ l, ∃ fields vt, p = .jobj fields ∧
        pyLookup fields "viz_type" = some (.jstr vt) ∧
        vt ∈ (["bar", "scatter", "histogram"] : List String) ∧ vt ∈ chartVocab := by
  have hdt : relevantDtypesCheck (.jarr (cols.map JValue.jstr)) = .ok () := by
    simp only [relevantDtypesCheck, pyIterElems, all_jstr_hashable, if_pos]
  have hred : ∃ e, step2_select_chart_types env q di (.jarr (cols.map JValue.jstr)) =
      step2Fallback (.jarr (cols.map JValue.jstr)) e := by
    cases hsvc : env.svc2 with
    | error e => exact ⟨e, by simp only [step2_select_chart_types, hm, hdt, hsvc]⟩
    | ok text =>
      simp only [step2FallbackTrigger, hsvc] at ht
      cases hext : extractBraces (pyStripList text.data) with
      | none =>
        exact ⟨"Could not parse JSON response",
          by simp only [step2_select_chart_types, hm, hdt, hsvc, hext]⟩
      | some span =>
        simp only [hext] at ht
        cases hjson : jsonLoads (String.mk span) with
        | error m =>
          exact ⟨m, by simp only [step2_select_chart_types, hm, hdt, hsvc, hext, hjson]⟩
        | ok v =>
          simp only [hjson] at ht
          cases hgi : pyGetItem v "proposals" with
          | error m =>
            exact ⟨m,
              by simp only [step2_select_chart_types, hm, hdt, hsvc, hext, hjson, hgi]⟩
          | ok props => simp [hgi] at ht
  obtain ⟨e, he⟩ := hred
  refine ⟨[.jobj [("viz_type", .jstr "bar"),
            ("justification",
             .jstr ("Fallback: Bar chart for comparison. Error: " ++ e)),
            ("columns_to_use", .jarr ((cols.map JValue.jstr).take 2))],
          .jobj [("viz_type", .jstr "scatter"),
            ("justification", .jstr "Fallback: Scatter plot for relationships."),
            ("columns_to_use", .jarr ((cols.map JValue.jstr).take 2))],
          .jobj [("viz_type", .jstr "histogram"),
            ("justification", .jstr "Fallback: Histogram for distribution."),
            ("columns_to_use", .jarr ((cols.map JValue.jstr).take 1))]],
    by rw [he]; rfl, rfl, ?_⟩
  intro p hp
  simp only [List.mem_cons, List.not_mem_nil, or_false] at hp
  rcases hp with rfl | rfl | rfl
  · exact ⟨_, "bar", rfl, rfl, by decide, by decide⟩
  · exact ⟨_, "scatter", rfl, rfl, by decide, by decide⟩
  · exact ⟨_, "histogram", rfl, rfl, by decide, by decide⟩

/-- Witness for the amended C2 on a failing service call. -/
theorem c2_amended_fallback_three_from_vocab_witness :
    _get_model envDownFix = .ok () ∧ step2FallbackTrigger envDownFix = true ∧
    ∃ l, step2_select_chart_types envDownFix "q" diFix
        (.jarr (["name", "age"].map JValue.jstr)) = .ok (.jarr l) ∧
      l.length = 3 ∧
      ∀ p ∈ l, ∃ fields vt, p = .jobj fields ∧
        pyLookup fields "viz_type" = some (.jstr vt) ∧
        vt ∈ (["bar", "scatter", "histogram"] : List String) ∧ vt ∈ chartVocab :=
  ⟨rfl, rfl,
   c2_amended_fallback_three_from_vocab envDownFix "q" diFix ["name", "age"] rfl rfl⟩

/-! ### C4: corrected — the malformed-JSON reasoning is response-dependent -/

/-- C4 counterexample: a no-brace response and a malformed-span response are
both in the claim's hypothesis class yet produce different reasoning
strings, refuting the single fixed (response-independent) reasoning. -/
theorem c4_counterexample :
    analysisReasoningOf (step1_identify_relevant_columns envNoBraceFix "q" diFix) =
      some "Could not parse LLM response, using first two columns." ∧
    analysisReasoningOf (step1_identify_relevant_columns envBadJsonFix "q" diFix) =
      some "Error in step 1: Expecting property name enclosed in double quotes" ∧
    "Could not parse LLM response, using first two columns." ≠
      "Error in step 1: Expecting property name enclosed in double quotes" ∧
    2 ≤ diFix.columns.length :=
  ⟨rfl, rfl, by decide, by decide⟩

/-- C4 (amended): in both failure cases step 1 falls back to exactly the
first two column names; the fixed reasoning string is used only when no
brace span exists, while a malformed extracted span yields
`"Error in step 1: "` followed by the (response-dependent) parser error. -/
theorem c4_amended_first_two_columns_fallback (env : GenEnv) (q : String)
    (di : DataInfo) (t : String) (hm : _get_model env = .ok ())
    (hs : env.svc1 = .ok t) (hlen : 2 ≤ di.columns.length) :
    (di.columns.take 2).length = 2 ∧
    (extractBraces (pyStripList t.data) = none →
      step1_identify_relevant_columns env q di = .ok (.jobj
        [("relevant_columns", .jarr ((di.columns.take 2).map JValue.jstr)),
         ("analysis_reasoning",
          .jstr "Could not parse LLM response, using first two columns.")])) ∧
    (∀ span m, extractBraces (pyStripList t.data) = some span →
      jsonLoads (String.mk span) = .error m →
      step1_identify_relevant_columns env q di = .ok (.jobj
        [("relevant_columns", .jarr ((di.columns.take 2).map JValue.jstr)),
         ("analysis_reasoning", .jstr ("Error in step 1: " ++ m))])) := by
  refine ⟨?_, ?_, ?_⟩
  · rw [List.length_take]
    omega
  · intro hext
    simp [step1_identify_relevant_columns, hm, hs, hext, step1FallbackNoParse]
  · intro span m hext hjson
    simp [step1_identify_relevant_columns, hm, hs, hext, hjson, step1FallbackError]

/-- Witness for the amended C4 on the no-brace response. -/
theorem c4_amended_first_two_columns_fallback_witness :
    _get_model envNoBraceFix = .ok () ∧ envNoBraceFix.svc1 = .ok "no json here" ∧
    2 ≤ diFix.columns.length ∧
    ((diFix.columns.take 2).length = 2 ∧
     (extractBraces (pyStripList "no json here".data) = none →
       step1_identify_relevant_columns envNoBraceFix "q" diFix = .ok (.jobj
         [("relevant_columns", .jarr ((diFix.columns.take 2).map JValue.jstr)),
          ("analysis_reasoning",
           .jstr "Could not parse LLM response, using first two columns.")])) ∧
     (∀ span m, extractBraces (pyStripList "no json here".data) = some span →
       jsonLoads (String.mk span) = .error m →
       step1_identify_relevant_columns envNoBraceFix "q" diFix = .ok (.jobj
         [("relevant_columns", .jarr ((diFix.columns.take 2).map JValue.jstr)),
          ("analysis_reasoning", .jstr ("Error in step 1: " ++ m))]))) :=
  ⟨rfl, rfl, by decide,
   c4_amended_first_two_columns_fallback envNoBraceFix "q" diFix "no json here"
     rfl rfl (by decide)⟩

/-! ### C5: corrected — only `return fig` is rewritten, only edge fences
stripped.  The supporting lemmas establish that the `re.sub` scan leaves no
word-bounded `return fig` match in its output. -/

theorem dropLit_eq_some (lit : List Char) :
    ∀ cs r, dropLit lit cs = some r → cs = lit ++ r := by
  induction lit with
  | nil =>
    intro cs r h
    simp only [dropLit, Option.some.injEq] at h
    rw [h]
    rfl
  | cons l ls ih =>
    intro cs r h
    cases cs with
    | nil => simp [dropLit] at h
    | cons c cs' =>
      simp only [dropLit] at h
      by_cases hc : c = l
      · rw [if_pos hc] at h
        subst hc
        simp [ih cs' r h]
      · rw [if_neg hc] at h
        cases h

theorem dropLit_append (lit : List Char) : ∀ t, dropLit lit (lit ++ t) = some t := by
  induction lit with
  | nil => intro t; rfl
  | cons l ls ih => intro t; simp [dropLit, ih]

theorem length_dropWhile_le {α : Type} (p : α → Bool) (l : List α) :
    (l.dropWhile p).length ≤ l.length := by
  induction l with
  | nil => simp
  | cons a l ih =>
    rw [List.dropWhile_cons]
    by_cases h : p a = true
    · rw [if_pos h]
      exact Nat.le_succ_of_le ih
    · rw [if_neg h]

/-- A successful `return\s+fig\b` match consumes at least ten characters. -/
theorem matchRF_some_length (cs r : List Char) (h : matchRF cs = some r) :
    r.length < cs.length := by
  unfold matchRF at h
  cases h1 : dropLit ['r', 'e', 't', 'u', 'r', 'n'] cs with
  | none => rw [h1] at h; simp only [] at h; cases h
  | some r1 =>
    rw [h1] at h
    simp only [] at h
    have hcs := dropLit_eq_some _ _ _ h1
    cases r1 with
    | nil => simp only [] at h; cases h
    | cons c r2 =>
      simp only [] at h
      by_cases hws : pyWS c = true
      · rw [if_pos hws] at h
        cases h4 : dropLit ['f', 'i', 'g'] (r2.dropWhile pyWS) with
        | none => rw [h4] at h; simp only [] at h; cases h
        | some r4 =>
          rw [h4] at h
          simp only [] at h
          have hr3 := dropLit_eq_some _ _ _ h4
          have hd : (r2.dropWhile pyWS).length ≤ r2.length :=
            length_dropWhile_le _ _
          rw [hr3] at hd
          cases r4 with
          | nil =>
            simp only [Option.some.injEq] at h
            subst h
            subst hcs
            simp at hd ⊢
          | cons d r5 =>
            simp only [] at h
            by_cases hwc : isWordChar d = true
            · rw [if_pos hwc] at h; cases h
            · rw [if_neg hwc] at h
              simp only [Option.some.injEq] at h
              subst h
              subst hcs
              simp at hd ⊢
              omega
      · rw [if_neg hws] at h
        cases h

/-- Scanning the replacement text finds no match inside it or across its
end: its single `r` is followed by `ea`, and it ends in a word character. -/
theorem hasRF_repl_append (p : Bool) (t : List Char) :
    hasRF p (rfRepl ++ t) = hasRF true t := by
  simp only [rfRepl, List.cons_append, List.nil_append]
  simp [hasRF, matchRF, dropLit, isWordChar]

theorem dropLit_split_p (lit : List Char) (hp : 'p' ∉ lit) :
    ∀ xs ys r, dropLit lit (xs ++ 'p' :: ys) = some r →
    ∃ xs', xs = lit ++ xs' ∧ r = xs' ++ 'p' :: ys := by
  induction lit with
  | nil =>
    intro xs ys r h
    simp only [dropLit, Option.some.injEq] at h
    exact ⟨xs, rfl, h.symm⟩
  | cons l ls ih =>
    intro xs ys r h
    have hl : 'p' ≠ l := fun hh => hp (by rw [hh]; exact List.mem_cons_self _ _)
    have hls : 'p' ∉ ls := fun hm => hp (List.mem_cons_of_mem _ hm)
    cases xs with
    | nil =>
      simp only [List.nil_append, dropLit] at h
      rw [if_neg hl] at h
      cases h
    | cons x xs₂ =>
      simp only [List.cons_append, dropLit] at h
      by_cases hc : x = l
      · rw [if_pos hc] at h
        obtain ⟨xs', h1, h2⟩ := ih hls xs₂ ys r h
        exact ⟨xs', by rw [hc, h1]; rfl, h2⟩
      · rw [if_neg hc] at h
        cases h

theorem dropWhile_append_p (xs ys : List Char) :
    (xs ++ 'p' :: ys).dropWhile pyWS = (xs.dropWhile pyWS) ++ 'p' :: ys := by
  induction xs with
  | nil =>
    simp only [List.nil_append, List.dropWhile_cons]
    rw [if_neg (by decide)]
    rfl
  | cons x xs ih =>
    simp only [List.cons_append, List.dropWhile_cons]
    by_cases hx : pyWS x = true
    · rw [if_pos hx, if_pos hx, ih]
    · rw [if_neg hx, if_neg hx]
      rfl

theorem dropWhile_append_of_ne_nil (xs t : List Char)
    (h : xs.dropWhile pyWS ≠ []) :
    (xs ++ t).dropWhile pyWS = xs.dropWhile pyWS ++ t := by
  induction xs with
  | nil => exact absurd rfl h
  | cons x xs ih =>
    simp only [List.cons_append, List.dropWhile_cons] at h ⊢
    by_cases hx : pyWS x = true
    · rw [if_pos hx] at h
      rw [if_pos hx, if_pos hx, ih h]
    · rw [if_neg hx, if_neg hx]
      rfl

/-- A match over a seam `xs ++ 'p' :: ys` must finish strictly inside `xs`
(every pattern position rejects `p`), so the same match succeeds whatever
follows `xs`. -/
theorem matchRF_split_p (xs ys r : List Char)
    (h : matchRF (xs ++ 'p' :: ys) = some r) :
    ∃ r₀, r₀ ≠ [] ∧ r = r₀ ++ 'p' :: ys ∧
      ∀ zs, matchRF (xs ++ zs) = some (r₀ ++ zs) := by
  unfold matchRF at h
  cases h1 : dropLit ['r', 'e', 't', 'u', 'r', 'n'] (xs ++ 'p' :: ys) with
  | none => rw [h1] at h; simp only [] at h; cases h
  | some r1 =>
    rw [h1] at h
    simp only [] at h
    obtain ⟨xs1, hxs1, hr1⟩ := dropLit_split_p _ (by decide) _ _ _ h1
    subst hr1
    cases xs1 with
    | nil =>
      simp only [List.nil_append] at h
      rw [show pyWS 'p' = false from by decide] at h
      simp at h
    | cons c xs2 =>
      simp only [List.cons_append] at h
      by_cases hws : pyWS c = true
      · rw [if_pos hws, dropWhile_append_p] at h
        cases h4 : dropLit ['f', 'i', 'g'] ((xs2.dropWhile pyWS) ++ 'p' :: ys) with
        | none => rw [h4] at h; simp only [] at h; cases h
        | some r4 =>
          rw [h4] at h
          simp only [] at h
          obtain ⟨xs3, hxs3, hr4⟩ := dropLit_split_p _ (by decide) _ _ _ h4
          subst hr4
          cases xs3 with
          | nil =>
            simp only [List.nil_append] at h
            rw [show isWordChar 'p' = true from by decide] at h
            simp at h
          | cons d xs4 =>
            simp only [List.cons_append] at h
            by_cases hwc : isWordChar d = true
            · rw [if_pos hwc] at h; cases h
            · rw [if_neg hwc] at h
              simp only [Option.some.injEq] at h
              refine ⟨d :: xs4, by simp, by rw [← h]; rfl, ?_⟩
              intro zs
              have hne : List.dropWhile pyWS xs2 ≠ [] := by rw [hxs3]; simp
              have hdw : List.dropWhile pyWS (xs2 ++ zs) =
                  List.dropWhile pyWS xs2 ++ zs :=
                dropWhile_append_of_ne_nil _ _ hne
              rw [hxs1]
              simp [matchRF, dropLit, hws, hwc, hdw, hxs3]
      · rw [if_neg hws] at h
        cases h

/-- The scanner's output is the input itself, or agrees with the input on a
prefix and then starts the replacement (whose first character is `p`). -/
theorem rfSubFuel_shape : ∀ b (w : Bool) cs, rfSubFuel b w cs = cs ∨
    ∃ pre d s t, cs = pre ++ d :: s ∧ rfSubFuel b w cs = pre ++ 'p' :: t := by
  intro b
  induction b with
  | zero => intro w cs; exact Or.inl rfl
  | succ b ih =>
    intro w cs
    cases cs with
    | nil => exact Or.inl rfl
    | cons c cs' =>
      cases w with
      | true =>
        simp only [rfSubFuel, if_pos]
        rcases ih (isWordChar c) cs' with heq | ⟨pre, d, s, t, hcs, hout⟩
        · exact Or.inl (by rw [heq])
        · exact Or.inr ⟨c :: pre, d, s, t, by rw [hcs]; rfl, by rw [hout]; rfl⟩
      | false =>
        simp only [rfSubFuel, Bool.false_eq_true, if_false]
        cases hm : matchRF (c :: cs') with
        | some rest =>
          refine Or.inr ⟨[], c, cs', ?_, rfl, ?_⟩
          · exact (rfRepl.drop 1) ++ rfSubFuel b true rest
          · simp [rfRepl]
        | none =>
          rcases ih (isWordChar c) cs' with heq | ⟨pre, d, s, t, hcs, hout⟩
          · exact Or.inl (by rw [heq])
          · exact Or.inr ⟨c :: pre, d, s, t, by rw [hcs]; rfl, by rw [hout]; rfl⟩

/-- Replacements never create a fresh match at an unmatched position. -/
theorem matchRF_none_rfSubFuel (c : Char) (cs' : List Char) (b : Nat) (w : Bool)
    (h : matchRF (c :: cs') = none) :
    matchRF (c :: rfSubFuel b w cs') = none := by
  rcases rfSubFuel_shape b w cs' with heq | ⟨pre, d, s, t, hcs, hout⟩
  · rw [heq]; exact h
  · rw [hout]
    cases hm : matchRF (c :: (pre ++ 'p' :: t)) with
    | none => rfl
    | some r =>
      obtain ⟨r₀, _, _, hall⟩ :=
        matchRF_split_p (c :: pre) t r (by rw [List.cons_append]; exact hm)
      have hz := hall (d :: s)
      rw [List.cons_append, ← hcs, h] at hz
      cases hz

/-- Main lemma: after the substitution pass no word-bounded `return fig`
match remains anywhere in the output. -/
theorem hasRF_rfSubFuel : ∀ b (p : Bool) cs, cs.length ≤ b →
    hasRF p (rfSubFuel b p cs) = false := by
  intro b
  induction b with
  | zero =>
    intro p cs h
    have hnil : cs = [] := List.eq_nil_of_length_eq_zero (Nat.le_zero.mp h)
    subst hnil
    rfl
  | succ b ih =>
    intro p cs hlen
    cases cs with
    | nil => cases p <;> rfl
    | cons c cs' =>
      have hlen' : cs'.length ≤ b := by
        simpa using Nat.succ_le_succ_iff.mp (by simpa using hlen)
      cases p with
      | true =>
        simp only [rfSubFuel, if_pos]
        simp only [hasRF, Bool.not_true, Bool.false_and, Bool.false_or]
        exact ih (isWordChar c) cs' hlen'
      | false =>
        simp only [rfSubFuel, Bool.false_eq_true, if_false]
        cases hm : matchRF (c :: cs') with
        | some rest =>
          rw [hasRF_repl_append]
          have hr := matchRF_some_length _ _ hm
          exact ih true rest (by simp at hr; omega)
        | none =>
          simp only [hasRF, Bool.not_false, Bool.true_and]
          rw [matchRF_none_rfSubFuel c cs' b _ hm]
          simp only [Option.isSome_none, Bool.false_or]
          exact ih (isWordChar c) cs' hlen'

/-- No word-bounded `return fig` survives `rfSubAll`. -/
theorem hasRF_rfSubAll (p : Bool) (cs : List Char) :
    hasRF p (rfSubAll p cs) = false :=
  hasRF_rfSubFuel cs.length p cs (Nat.le_refl _)

/-- C5 counterexample: after cleanup the returned code is the bare foreign
statement `return foo` (a value-returning statement the rewrite does not
touch), and an interior code fence survives in another response — refuting
both halves of the claim. -/
theorem c5_counterexample :
    step3_generate_plotting_code envReturnFooFix propFix diFix = .ok "return foo" ∧
    (∃ rest, "return foo".data = "return".data ++ rest) ∧
    step3_generate_plotting_code envMidFenceFix propFix diFix =
      .ok "x = 1\n```\ny = 2" ∧
    (∃ pre post, "x = 1\n```\ny = 2".data = pre ++ "```".data ++ post) :=
  ⟨rfl, ⟨" foo".data, rfl⟩, rfl, ⟨"x = 1\n".data, "\ny = 2".data, rfl⟩⟩

/-- C5 (amended): step 3 strips only a leading ```` ```python ````/` ``` `
fence and a trailing fence and rewrites exactly the word-bounded
`return fig` statements into no-ops, so the success-path result never
contains a word-bounded `return fig`; other return statements and interior
fences may remain. -/
theorem c5_amended_no_word_bounded_return_fig (env : GenEnv) (proposal : JValue)
    (di : DataInfo) (t code : String) (hs : env.svc3 = .ok t)
    (hok : step3_generate_plotting_code env proposal di = .ok code) :
    hasRF false code.data = false := by
  unfold step3_generate_plotting_code at hok
  cases hm : _get_model env with
  | error e => rw [hm] at hok; simp only [] at hok; cases hok
  | ok u =>
    rw [hm] at hok
    simp only [] at hok
    cases hgi : pyGetItem proposal "viz_type" with
    | error e => rw [hgi] at hok; simp only [] at hok; cases hok
    | ok vtv =>
      rw [hgi, hs] at hok
      simp only [Except.ok.injEq] at hok
      rw [← hok]
      unfold cleanupCode
      exact hasRF_rfSubAll false _

/-- Witness for the amended C5 at the fenced `return foo` response. -/
theorem c5_amended_no_word_bounded_return_fig_witness :
    envReturnFooFix.svc3 = .ok "```python\nreturn foo\n```" ∧
    step3_generate_plotting_code envReturnFooFix propFix diFix = .ok "return foo" ∧
    hasRF false ("return foo".data) = false :=
  ⟨rfl, rfl,
   c5_amended_no_word_bounded_return_fig envReturnFooFix propFix diFix
     "```python\nreturn foo\n```" "return foo" rfl rfl⟩
